import Mathlib

/-!
Verification development for the scribe repository.

The repository contains three near-duplicate revisions of one Firebase
functions module:
  - revision 1: src/functions/index.js (suffix `_v1` below);
  - revision 2: first document of src/unnamed/part_000, lines 1-154
    (suffix `_v2`);
  - revision 3: second document of src/unnamed/part_000, lines 156-319
    (suffix `_v3`).

The embedding models the per-user slice of the Firestore state (the
user document with its `receiptCount` field, the singleton memory
summary document `users/{uid}/memory/summary`, and the `receipts`
collection), the generative backend as an opaque fallible function
from prompt text to text, and each exported function as a pure Lean
function over that state.  Firestore transactions are modelled as
atomic steps returning `Except`: buffered writes appear in the result
state only when the whole step returns `Except.ok`, and an
`Except.error` result leaves the persisted state untouched.
-/

namespace Scribe

/-- Receipt document: one entry of `users/{uid}/receipts`, with its
`message` field and its creation `timestamp` (modelled as a natural
number, the sole ordering key). -/
structure Receipt where
  message : String
  timestamp : Nat
deriving DecidableEq

/-- Memory summary document `users/{uid}/memory/summary`, with its
`summary` text and the server-assigned `lastUpdated` timestamp. -/
structure MemoryDoc where
  summary : String
  lastUpdated : Nat
deriving DecidableEq

/-- Per-user slice of the document store.  `userExists` records whether
the user document exists at all; `receiptCount` is `none` when the
field is absent from the user document; `memory` is `none` when the
memory summary document is absent. -/
structure DB where
  userExists : Bool
  receiptCount : Option Nat
  memory : Option MemoryDoc
  receipts : List Receipt
deriving DecidableEq

/-- Store retrieval order used by every query in the source:
`orderBy("timestamp", "desc")` puts `a` before `b` when the timestamp
of `b` is at most the timestamp of `a`. -/
def tsDesc (a b : Receipt) : Prop := b.timestamp ≤ a.timestamp

instance : DecidableRel tsDesc := fun a b => Nat.decLe b.timestamp a.timestamp

/-- Strict newest-first order between receipts. -/
def tsAfter (a b : Receipt) : Prop := b.timestamp < a.timestamp

instance : DecidableRel tsAfter := fun a b => Nat.decLt b.timestamp a.timestamp

/-- Strict oldest-first (chronological) order between receipts. -/
def tsBefore (a b : Receipt) : Prop := a.timestamp < b.timestamp

instance : DecidableRel tsBefore := fun a b => Nat.decLt a.timestamp b.timestamp

/-- Model of `db.collection(users/{uid}/receipts).orderBy("timestamp",
"desc").limit(n).get()`: the stored receipts sorted newest-first and
truncated to the `n` most recent. -/
def queryRecentDesc (n : Nat) (db : DB) : List Receipt :=
  (List.insertionSort tsDesc db.receipts).take n

/-- Rendering of one retrieved receipt into a prompt line, from the
source mapping `(r) => ` dash space `${r.message}`. -/
def fmtEntry (r : Receipt) : String := "- " ++ r.message

/-- Enhancement-mode pipeline over the retrieved (newest-first) list:
`recentReceipts.reverse().map(fmtEntry)` (revisions 1, 2 and 3 all use
reverse-then-map). -/
def enhanceLines (retrieved : List Receipt) : List String :=
  (retrieved.reverse).map fmtEntry

/-- Curation-mode pipeline over the retrieved (newest-first) list:
`receiptsSnap.docs.map(fmtEntry).reverse()` (revision 3 lines 253-255;
revision 2 lines 121-123 are identical). -/
def curateLines (retrieved : List Receipt) : List String :=
  (retrieved.map fmtEntry).reverse

/-- Context history string for enhancement mode: the 3 most recent
receipts, reversed to chronological order and joined with newlines. -/
def contextHistoryOf (db : DB) : String :=
  String.intercalate "\n" (enhanceLines (queryRecentDesc 3 db))

/-- Recent history string for curation mode: the 15 most recent
receipts, mapped to lines, reversed to chronological order and joined
with newlines. -/
def recentHistoryOf (db : DB) : String :=
  String.intercalate "\n" (curateLines (queryRecentDesc 15 db))

/-- Memory text used by the enhancement operation (revisions 2 and 3):
the stored `summary` field when the memory document exists, otherwise
the literal default placeholder. -/
def memoryTextOf (db : DB) : String :=
  match db.memory with
  | some m => m.summary
  | none => "No long-term memory yet."

/-- Memory text read inside the batch trigger: stored `summary` when
the memory document exists, otherwise the empty string. -/
def currentMemoryOf (db : DB) : String :=
  match db.memory with
  | some m => m.summary
  | none => ""

/-- Enhancement prompt of revision 1 (src/functions/index.js lines
58-73), an array of lines joined with newlines. -/
def enhancePrompt_v1 (contextText rawText : String) : String :=
  "You are a supportive and insightful biographer.\nYour task is to take a raw note from a user and expand it into a\nbeautifully written, reflective journal entry of 2-3 sentences.\nFrame it as a significant moment in their life story.\n\nUse the following recent entries as context to understand recurring\nthemes or ongoing stories. This context should inform the tone and\nperspective of your writing, but do not explicitly reference these\npast entries.\nCONTEXT of the last few entries:\n" ++
  ((if contextText = "" then "No recent entries." else contextText) ++
   ("\n\nNow, based on that context, please rephrase the following NEW NOTE:\nNEW NOTE: \"" ++
    (rawText ++ "\"")))

/-- Enhancement prompt of revision 3 (part_000 lines 205-218). -/
def enhancePrompt_v3 (memorySummary contextHistory rawText : String) : String :=
  "You are a personal scribe with a witty, slightly playful,\nand very human tone. Your goal is to rephrase the user\x27s raw note into a\nbeautifully written, insightful journal entry. The final output must be a\nsingle paragraph under 200 characters. Use the following long-term memory\nand recent entries for deep context, but don\x27t feel obligated to reference\nthem directly. Focus on making the new entry shine.\n\nLONG-TERM MEMORY:\n" ++
  (memorySummary ++
   ("\n\nRECENT ENTRIES:\n" ++
    ((if contextHistory = "" then "No recent entries." else contextHistory) ++
     ("\n\nNEW NOTE: \"" ++ (rawText ++ "\"")))))

/-- Curator prompt of revision 3 (part_000 lines 262-274). -/
def curatorPrompt_v3 (currentMemory recentHistory : String) : String :=
  "You are an intelligent memory archivist. Your task is to\nupdate the user\x27s long-term memory summary. Here is the current summary and a\nlist of their recent journal entries. Synthesize the new entries into the\nexisting summary, creating a new, cohesive narrative. Intelligently integrate\nnew facts, remove outdated or trivial details, and identify evolving themes.\nThe final summary should be a concise, high-level overview of the user\x27s\ncurrent life, under 2000 characters. Output only the updated summary.\n\nCURRENT SUMMARY:\n" ++
  ((if currentMemory = "" then "No summary yet." else currentMemory) ++
   ("\n\nNEW ENTRIES:\n" ++ recentHistory))

/-- Full enhancement prompt assembled by revision 1 for a given store
state and raw note. -/
def enhancePromptOf_v1 (db : DB) (rawText : String) : String :=
  enhancePrompt_v1 (contextHistoryOf db) rawText

/-- Full enhancement prompt assembled by revision 3. -/
def enhancePromptOf_v3 (db : DB) (rawText : String) : String :=
  enhancePrompt_v3 (memoryTextOf db) (contextHistoryOf db) rawText

/-- Error taxonomy of the callable operations, mirroring
`functions.https.HttpsError` kinds with their message payloads. -/
inductive CallErr where
  | unauthenticated (msg : String)
  | invalidArgument (msg : String)
  | internal (msg : String)
deriving DecidableEq

/-- Invalid-argument message of revision 1 (index.js lines 32-36, the
two concatenated string literals). -/
def invalidMsg_v1 : String :=
  "The function must be called with one argument \x27text\x27 containing the message to rewrite."

/-- Revision 1 of `getEnhancedReceipt` (src/functions/index.js lines
19-93).  `auth` is the caller identity (`context.auth`), `text` the
`data.text` argument (`none` models `undefined`, and the falsiness
check `if (!rawText)` also rejects the empty string).  `store` models
the receipts query inside the `try` block (an `Except.error` is any
store fault, caught and surfaced as `internal`); `gen` is the Gemini
call.  Note that revision 1 never reads the memory summary document. -/
def getEnhancedReceipt_v1 (auth : Option String) (text : Option String)
    (store : Except String DB) (gen : String → Except String String) :
    Except CallErr String :=
  match auth with
  | none => Except.error (CallErr.unauthenticated "You must be logged in to use the AI Scribe.")
  | some _uid =>
    match text with
    | none => Except.error (CallErr.invalidArgument invalidMsg_v1)
    | some rawText =>
      if rawText = "" then Except.error (CallErr.invalidArgument invalidMsg_v1)
      else
        match store with
        | Except.error _ =>
            Except.error (CallErr.internal "Failed to get a response from the AI Scribe.")
        | Except.ok db =>
          match gen (enhancePromptOf_v1 db rawText) with
          | Except.error _ =>
              Except.error (CallErr.internal "Failed to get a response from the AI Scribe.")
          | Except.ok enhancedText => Except.ok enhancedText

/-- Revision 3 of `getEnhancedReceipt` (part_000 lines 176-227).  Same
shape as revision 1 but it also reads the memory summary document
(with the default placeholder) and embeds it into the prompt. -/
def getEnhancedReceipt_v3 (auth : Option String) (text : Option String)
    (store : Except String DB) (gen : String → Except String String) :
    Except CallErr String :=
  match auth with
  | none => Except.error (CallErr.unauthenticated "Auth required.")
  | some _uid =>
    match text with
    | none => Except.error (CallErr.invalidArgument "Text required.")
    | some rawText =>
      if rawText = "" then Except.error (CallErr.invalidArgument "Text required.")
      else
        match store with
        | Except.error _ => Except.error (CallErr.internal "AI Scribe failed.")
        | Except.ok db =>
          match gen (enhancePromptOf_v3 db rawText) with
          | Except.error _ => Except.error (CallErr.internal "AI Scribe failed.")
          | Except.ok enhancedText => Except.ok enhancedText

/-- Revision 2 of `getEnhancedReceipt` (part_000 lines 20-90).  Its
validation mirrors revisions 1 and 3, but inside the `try` block line
43 calls `memoryDoc.exists()` with parentheses: on firebase-admin,
`DocumentSnapshot.exists` is a getter property, not a method, so the
call throws a TypeError on every authenticated, non-empty invocation
before any prompt is assembled.  The catch block surfaces this as the
fixed `internal` message, so revision 2 never sends a prompt to the
generative backend at all (its template literal at lines 63-75 is
unreachable at runtime); `store` and `gen` cannot influence the
result. -/
def getEnhancedReceipt_v2 (auth : Option String) (text : Option String)
    (_store : Except String DB) (_gen : String → Except String String) :
    Except CallErr String :=
  match auth with
  | none => Except.error (CallErr.unauthenticated "You must be logged in to use the AI Scribe.")
  | some _uid =>
    match text with
    | none =>
        Except.error
          (CallErr.invalidArgument "The function must be called with \x27text\x27 containing the message.")
    | some rawText =>
      if rawText = "" then
        Except.error
          (CallErr.invalidArgument "The function must be called with \x27text\x27 containing the message.")
      else
        Except.error (CallErr.internal "Failed to get a response from the AI Scribe.")

/-- Failure modes of the batch trigger transaction. -/
inductive TriggerError where
  | typeError
  | genFailure (detail : String)
deriving DecidableEq

/-- The `receiptCount` value the trigger reads, following revision 3
lines 240-242: `userDoc.exists ? userDoc.data().receiptCount || 0 : 0`
(an absent document or an absent field both read as 0). -/
def preCount (db : DB) : Nat :=
  if db.userExists then db.receiptCount.getD 0 else 0

/-- The summary committer: `transaction.set(memoryRef, {summary,
lastUpdated: serverTimestamp()})` (part_000 lines 149-152 and
278-281).  `now` stands for the server timestamp at commit time. -/
def commitSummary (text : String) (now : Nat) (db : DB) : DB :=
  { db with memory := some ⟨text, now⟩ }

/-- Revision 3 of `updateMemoryOnNewReceipt` (part_000 lines 232-283)
as one atomic transaction step.  The counter write is the merge-upsert
`transaction.set(userRef, {receiptCount: newCount}, {merge: true})`;
when `newCount` is a multiple of 5 the step additionally reads the 15
most recent receipts and the current summary from the pre-transaction
state, calls the generative backend synchronously, and buffers the
summary write.  An `Except.error` result models the transaction
aborting with none of the buffered writes applied.  The returned
`Bool` mirrors the source distinguishing the early `return null` from
the `return transaction.set(...)`: it is `true` exactly when the
refresh path executed. -/
def updateMemoryOnNewReceipt_v3 (gen : String → Except String String)
    (now : Nat) (db : DB) : Except TriggerError (DB × Bool) :=
  let newCount := preCount db + 1
  let dbCounter : DB := { db with userExists := true, receiptCount := some newCount }
  if newCount % 5 ≠ 0 then
    Except.ok (dbCounter, false)
  else
    match gen (curatorPrompt_v3 (currentMemoryOf db) (recentHistoryOf db)) with
    | Except.error e => Except.error (TriggerError.genFailure e)
    | Except.ok newSummary => Except.ok (commitSummary newSummary now dbCounter, true)

/-- Revision 2 of `updateMemoryOnNewReceipt` (part_000 lines 96-154).
Unlike revision 3 it reads `userDoc.data().receiptCount || 0` with no
existence check (line 105): when the user document is absent,
`userDoc.data()` is `undefined` and the field access throws, so the
transaction fails (`typeError`); its counter write is also a plain
`transaction.update`, which fails on a missing document.  Its refresh
branch never completes either: line 129 calls `memoryDoc.exists()`
with parentheses — a getter property called as a function on
firebase-admin — which throws a TypeError before the generative call,
so every fifth creation aborts the whole transaction (counter write
included) in revision 2; `gen` is never invoked. -/
def updateMemoryOnNewReceipt_v2 (_gen : String → Except String String)
    (_now : Nat) (db : DB) : Except TriggerError (DB × Bool) :=
  if db.userExists = false then
    Except.error TriggerError.typeError
  else
    let newCount := db.receiptCount.getD 0 + 1
    let dbCounter : DB := { db with receiptCount := some newCount }
    if newCount % 5 ≠ 0 then
      Except.ok (dbCounter, false)
    else
      Except.error TriggerError.typeError

/-- Persisted state after one trigger invocation (revision 3): when the
transaction returns an error, Firestore discards the buffered writes
and the committed state is unchanged. -/
def persistedAfterTrigger_v3 (gen : String → Except String String)
    (now : Nat) (db : DB) : DB :=
  match updateMemoryOnNewReceipt_v3 gen now db with
  | Except.ok r => r.1
  | Except.error _ => db

/-- A generative backend that always succeeds, built from a total
text-to-text function. -/
def okGen (gen : String → String) : String → Except String String :=
  fun p => Except.ok (gen p)

/-- Empty per-user state: no user document, no memory document, no
receipts. -/
def emptyDB : DB := ⟨false, none, none, []⟩

/-- Creation of one receipt document (the client-side write that fires
the `onCreate` trigger). -/
def addReceipt (db : DB) (msg : String) (ts : Nat) : DB :=
  { db with receipts := db.receipts ++ [⟨msg, ts⟩] }

/-- Message text of the i-th sequentially created entry. -/
def noteText (i : Nat) : String := "note " ++ toString i

/-- One sequential creation step: add the i-th receipt (timestamp i),
then run the revision-3 batch trigger on the new state, accumulating
how many times the refresh path executed.  The error branch is
unreachable for a backend built with `okGen`. -/
def runStep (gen : String → String) (i : Nat) (st : DB × Nat) : DB × Nat :=
  match updateMemoryOnNewReceipt_v3 (okGen gen) i (addReceipt st.1 (noteText i) i) with
  | Except.ok (db2, fired) => (db2, st.2 + (if fired then 1 else 0))
  | Except.error _ => st

/-- Sequential processing of m entry creations for one user, starting
from the empty state.  Returns the final state and the number of times
the refresh path executed. -/
def runCreates (gen : String → String) : Nat → DB × Nat
  | 0 => (emptyDB, 0)
  | m + 1 => runStep gen (m + 1) (runCreates gen m)

/-- Executable check that the first list is an initial segment of the
second. -/
def listPrefixOf : List Char → List Char → Bool
  | [], _ => true
  | _ :: _, [] => false
  | a :: as, b :: bs => a == b && listPrefixOf as bs

/-- Executable check that the first list occurs contiguously inside the
second. -/
def listInside (p : List Char) : List Char → Bool
  | [] => listPrefixOf p []
  | c :: tail => listPrefixOf p (c :: tail) || listInside p tail

/-- Executable substring check on strings. -/
def strContains (needle hay : String) : Bool :=
  listInside needle.data hay.data

theorem listPrefixOf_append_self (l b : List Char) :
    listPrefixOf l (l ++ b) = true := by
  induction l with
  | nil => rfl
  | cons a as ih => simp [listPrefixOf, ih]

theorem listInside_self_append (m b : List Char) :
    listInside m (m ++ b) = true := by
  cases m with
  | nil =>
    cases b with
    | nil => rfl
    | cons c t => simp [listInside, listPrefixOf]
  | cons c m2 =>
    simp only [List.cons_append, listInside, Bool.or_eq_true]
    left
    exact listPrefixOf_append_self (c :: m2) b

theorem listInside_middle (a m b : List Char) :
    listInside m (a ++ (m ++ b)) = true := by
  induction a with
  | nil => simpa using listInside_self_append m b
  | cons x xs ih =>
    simp only [List.cons_append, listInside]
    simp [ih]

theorem strData_append (s t : String) : (s ++ t).data = s.data ++ t.data := by
  cases s
  cases t
  rfl

theorem strContains_middle (pre mid post : String) :
    strContains mid (pre ++ (mid ++ post)) = true := by
  unfold strContains
  rw [strData_append, strData_append]
  exact listInside_middle pre.data mid.data post.data

/-- Memory summary timestamp of the state, 0 when the document is
absent. -/
def memLastUpdated (db : DB) : Nat :=
  match db.memory with
  | some d => d.lastUpdated
  | none => 0

/-- A generative backend constant used by concrete instances. -/
def genConst : String → Except String String := fun _ => Except.ok "SUMMARY"

/-- State of a user that has no user document yet but one stored
receipt: the situation right after the very first receipt of a fresh
user is created. -/
def dbNoUser : DB := ⟨false, none, none, [⟨"first note", 1⟩]⟩

/-- C2: the batch trigger on an absent or uninitialized User record
treats the count as 0 and upserts `newCount = 1` without failing.
This holds for revision 3 (part_000 lines 239-244), but revision 2
(part_000 lines 104-106) dereferences `userDoc.data()` — `undefined`
for an absent document — and uses `transaction.update`, which fails on
a missing document, so revision 2 throws instead of upserting.  The
theorem evaluates both revisions at the failing input. -/
theorem C2_absent_user_record :
    updateMemoryOnNewReceipt_v2 genConst 1 dbNoUser = Except.error TriggerError.typeError
    ∧ updateMemoryOnNewReceipt_v3 genConst 1 dbNoUser =
        Except.ok (⟨true, some 1, none, [⟨"first note", 1⟩]⟩, false) := by
  constructor
  · rfl
  · rfl

/-- C10: in both cited revisions the authentication check strictly
precedes argument validation — with no caller identity the result is
`unauthenticated` for every value of the `text` argument (absent,
empty or non-empty alike), never `invalid-argument`. -/
theorem C10_auth_checked_first (text : Option String) (store : Except String DB)
    (gen : String → Except String String) :
    getEnhancedReceipt_v1 none text store gen =
      Except.error (CallErr.unauthenticated "You must be logged in to use the AI Scribe.")
    ∧ getEnhancedReceipt_v3 none text store gen =
      Except.error (CallErr.unauthenticated "Auth required.") := by
  exact ⟨rfl, rfl⟩

/-- C8: committing a summary overwrites the `summary` field with the
given text and sets `lastUpdated` to the commit-time server timestamp,
succeeds and produces the same result whatever the prior memory
document was (including absent), and committing the same text twice
yields the same `summary` field with a monotonically non-decreasing
`lastUpdated`. -/
theorem C8_summary_commit (db : DB) (text : String) (now t1 t2 : Nat)
    (m : Option MemoryDoc) :
    commitSummary text now { db with memory := m } = { db with memory := some ⟨text, now⟩ }
    ∧ (commitSummary text now db).memory = some ⟨text, now⟩
    ∧ (t1 ≤ t2 →
        (commitSummary text t2 (commitSummary text t1 db)).memory.map MemoryDoc.summary
          = (commitSummary text t1 db).memory.map MemoryDoc.summary
        ∧ memLastUpdated (commitSummary text t1 db) ≤
            memLastUpdated (commitSummary text t2 (commitSummary text t1 db))) := by
  refine ⟨rfl, rfl, fun h => ⟨rfl, ?_⟩⟩
  simpa [commitSummary, memLastUpdated] using h

/-- C8 witness: the idempotence conjunct instantiated at a fresh user
state with commit times 3 and then 5. -/
theorem C8_summary_commit_witness :
    (commitSummary "S" 5 (commitSummary "S" 3 emptyDB)).memory.map MemoryDoc.summary
      = (commitSummary "S" 3 emptyDB).memory.map MemoryDoc.summary
    ∧ memLastUpdated (commitSummary "S" 3 emptyDB) ≤
        memLastUpdated (commitSummary "S" 5 (commitSummary "S" 3 emptyDB)) :=
  (C8_summary_commit emptyDB "S" 0 3 5 none).2.2 (by decide)

/-- C5: when `newCount` is a multiple of 5, the whole refresh happens
inside the single transaction step that also carries the counter
increment: the resulting one atomic commit contains both the upserted
counter and the summary document whose text is the backend response to
the curator prompt rendered from the pre-transaction reads (the 15
most recent receipts reversed to chronological order, and the current
summary defaulting to the empty string when absent), stamped with the
commit-time server timestamp.  Because the whole step is one atomic
transition, it is serialized against any other transition for the same
user. -/
theorem C5_refresh_in_same_transaction (gen : String → Except String String)
    (now : Nat) (db : DB) (s : String)
    (hm : (preCount db + 1) % 5 = 0)
    (hg : gen (curatorPrompt_v3 (currentMemoryOf db) (recentHistoryOf db)) = Except.ok s) :
    updateMemoryOnNewReceipt_v3 gen now db =
      Except.ok
        (commitSummary s now
          { db with userExists := true, receiptCount := some (preCount db + 1) }, true) := by
  simp [updateMemoryOnNewReceipt_v3, hm, hg]

/-- State of a user at count 4 with one receipt and an old summary. -/
def dbAtFour : DB := ⟨true, some 4, some ⟨"old summary", 2⟩, [⟨"ran a mile", 1⟩]⟩

/-- A generative backend returning a fixed refreshed summary. -/
def genNew : String → Except String String := fun _ => Except.ok "NEW SUMMARY"

/-- C5 witness: the fifth creation for `dbAtFour` commits counter 5 and
the freshly generated summary in one step. -/
theorem C5_refresh_in_same_transaction_witness :
    updateMemoryOnNewReceipt_v3 genNew 7 dbAtFour =
      Except.ok
        (commitSummary "NEW SUMMARY" 7
          { dbAtFour with userExists := true, receiptCount := some (preCount dbAtFour + 1) },
         true) :=
  C5_refresh_in_same_transaction genNew 7 dbAtFour "NEW SUMMARY" (by decide) rfl

/-- C3: if the generative backend call inside the refresh path fails,
the whole transaction fails and no buffered write is applied — the
persisted state after the invocation equals the state before it, so
neither the counter increment nor any summary write is committed. -/
theorem C3_failed_gen_aborts_transaction (gen : String → Except String String)
    (now : Nat) (db : DB)
    (hm : (preCount db + 1) % 5 = 0)
    (hg : ∀ p, ∃ e, gen p = Except.error e) :
    persistedAfterTrigger_v3 gen now db = db
    ∧ ∃ e, updateMemoryOnNewReceipt_v3 gen now db =
        Except.error (TriggerError.genFailure e) := by
  obtain ⟨e, he⟩ := hg (curatorPrompt_v3 (currentMemoryOf db) (recentHistoryOf db))
  constructor
  · simp [persistedAfterTrigger_v3, updateMemoryOnNewReceipt_v3, hm, he]
  · exact ⟨e, by simp [updateMemoryOnNewReceipt_v3, hm, he]⟩

/-- A generative backend that always fails with a provider error. -/
def genDown : String → Except String String := fun _ => Except.error "provider outage"

/-- C3 witness: a failing backend call on the fifth creation leaves the
persisted state exactly as it was. -/
theorem C3_failed_gen_aborts_transaction_witness :
    persistedAfterTrigger_v3 genDown 9 dbAtFour = dbAtFour :=
  (C3_failed_gen_aborts_transaction genDown 9 dbAtFour (by decide)
    (fun _ => ⟨"provider outage", rfl⟩)).1

/-- State with four receipts and no memory summary document. -/
def dbFourNotes : DB :=
  ⟨true, some 4, none, [⟨"a", 1⟩, ⟨"b", 2⟩, ⟨"c", 3⟩, ⟨"d", 4⟩]⟩

/-- State whose memory summary holds a recognizable text. -/
def dbWithGold : DB :=
  ⟨true, some 7, some ⟨"GOLDMEMORY", 3⟩, [⟨"a", 1⟩]⟩

set_option maxRecDepth 100000 in
/-- C4 counterexample: revision 1 of the enhancement operation
(src/functions/index.js) never embeds the Memory Summary in its
prompt.  For a caller with no memory document the prompt does not
contain the default placeholder, and for a caller with a stored
summary the prompt does not contain the stored text either. -/
theorem C4_counterexample_v1_prompt_lacks_memory :
    strContains "No long-term memory yet." (enhancePromptOf_v1 dbFourNotes "went for a run")
      = false
    ∧ strContains "GOLDMEMORY" (enhancePromptOf_v1 dbWithGold "went for a run") = false := by
  constructor
  · decide
  · decide

/-- C4 amended: in the revision-3 enhancement operation every
assembled prompt embeds the caller Memory Summary text, with the
default placeholder when no memory document exists.  Neither earlier
revision ever sends such a prompt: revision 1
(src/functions/index.js) embeds only the recent entries and the raw
note, and revision 2 throws at the `memoryDoc.exists()` call (a
getter property called as a function, part_000 line 43) before any
prompt is assembled, failing every authenticated, non-empty call with
the fixed `internal` error. -/
theorem C4_amended_memory_embedded (db : DB) (rawText uid : String)
    (store : Except String DB) (gen : String → Except String String) :
    strContains (memoryTextOf db) (enhancePromptOf_v3 db rawText) = true
    ∧ (rawText ≠ "" →
        getEnhancedReceipt_v2 (some uid) (some rawText) store gen =
          Except.error (CallErr.internal "Failed to get a response from the AI Scribe.")) := by
  constructor
  · exact strContains_middle _ _ _
  · intro ht
    simp [getEnhancedReceipt_v2, ht]

/-- C4 amended witness: at a concrete stored summary the revision-3
prompt contains the summary text, and the same concrete call on
revision 2 fails with the fixed internal error. -/
theorem C4_amended_memory_embedded_witness :
    strContains (memoryTextOf dbWithGold) (enhancePromptOf_v3 dbWithGold "went for a run") = true
    ∧ getEnhancedReceipt_v2 (some "u") (some "went for a run") (Except.ok dbWithGold) genNew =
        Except.error (CallErr.internal "Failed to get a response from the AI Scribe.") :=
  ⟨(C4_amended_memory_embedded dbWithGold "went for a run" "u" (Except.ok dbWithGold) genNew).1,
   (C4_amended_memory_embedded dbWithGold "went for a run" "u" (Except.ok dbWithGold) genNew).2
     (by decide)⟩

/-- C9: error taxonomy of the enhancement operation, in revision 3 and
revision 1.  No caller identity fails `unauthenticated`; an absent or
empty `text` fails `invalid-argument`; a store fault or a generative
backend fault fails `internal` with the fixed catch-block message,
never the provider detail; otherwise the backend text is returned
verbatim. -/
theorem C9_enhancement_error_taxonomy (uid t s det : String) (text : Option String)
    (store : Except String DB) (gen : String → Except String String) (db : DB) :
    getEnhancedReceipt_v3 none text store gen =
      Except.error (CallErr.unauthenticated "Auth required.")
    ∧ getEnhancedReceipt_v3 (some uid) none store gen =
        Except.error (CallErr.invalidArgument "Text required.")
    ∧ getEnhancedReceipt_v3 (some uid) (some "") store gen =
        Except.error (CallErr.invalidArgument "Text required.")
    ∧ (t ≠ "" →
        getEnhancedReceipt_v3 (some uid) (some t) (Except.error det) gen =
          Except.error (CallErr.internal "AI Scribe failed."))
    ∧ (t ≠ "" → gen (enhancePromptOf_v3 db t) = Except.error det →
        getEnhancedReceipt_v3 (some uid) (some t) (Except.ok db) gen =
          Except.error (CallErr.internal "AI Scribe failed."))
    ∧ (t ≠ "" → gen (enhancePromptOf_v3 db t) = Except.ok s →
        getEnhancedReceipt_v3 (some uid) (some t) (Except.ok db) gen = Except.ok s)
    ∧ getEnhancedReceipt_v1 none text store gen =
        Except.error (CallErr.unauthenticated "You must be logged in to use the AI Scribe.")
    ∧ getEnhancedReceipt_v1 (some uid) (some "") store gen =
        Except.error (CallErr.invalidArgument invalidMsg_v1)
    ∧ (t ≠ "" →
        getEnhancedReceipt_v1 (some uid) (some t) (Except.error det) gen =
          Except.error (CallErr.internal "Failed to get a response from the AI Scribe."))
    ∧ (t ≠ "" → gen (enhancePromptOf_v1 db t) = Except.error det →
        getEnhancedReceipt_v1 (some uid) (some t) (Except.ok db) gen =
          Except.error (CallErr.internal "Failed to get a response from the AI Scribe."))
    ∧ (t ≠ "" → gen (enhancePromptOf_v1 db t) = Except.ok s →
        getEnhancedReceipt_v1 (some uid) (some t) (Except.ok db) gen = Except.ok s) := by
  refine ⟨rfl, rfl, rfl, fun ht => ?_, fun ht hgen => ?_, fun ht hgen => ?_, rfl, rfl,
    fun ht => ?_, fun ht hgen => ?_, fun ht hgen => ?_⟩
  all_goals simp [getEnhancedReceipt_v1, getEnhancedReceipt_v3, ht]
  all_goals simp [hgen]

/-- C9 witness: a store fault on an authenticated, non-empty call fails
with the opaque fixed internal message. -/
theorem C9_enhancement_error_taxonomy_witness :
    getEnhancedReceipt_v3 (some "u") (some "hi") (Except.error "store down") genNew =
      Except.error (CallErr.internal "AI Scribe failed.") :=
  ((C9_enhancement_error_taxonomy "u" "hi" "out" "store down" none
      (Except.error "store down") genNew emptyDB).2.2.2.1) (by decide)

/-- Shared step characterization of the revision-3 trigger under a
backend that always succeeds: the counter is upserted to its
predecessor plus one and the refresh path runs exactly when that new
count is a multiple of 5. -/
theorem trigger_v3_ok_cases (gen : String → String) (now : Nat) (db : DB) :
    (¬ (preCount db + 1) % 5 = 0 →
      updateMemoryOnNewReceipt_v3 (okGen gen) now db =
        Except.ok ({ db with userExists := true, receiptCount := some (preCount db + 1) },
          false))
    ∧ ((preCount db + 1) % 5 = 0 →
      updateMemoryOnNewReceipt_v3 (okGen gen) now db =
        Except.ok
          (commitSummary (gen (curatorPrompt_v3 (currentMemoryOf db) (recentHistoryOf db)))
            now { db with userExists := true, receiptCount := some (preCount db + 1) },
           true)) := by
  constructor
  · intro h
    simp [updateMemoryOnNewReceipt_v3, okGen, h]
  · intro h
    simp [updateMemoryOnNewReceipt_v3, okGen, h]

theorem preCount_addReceipt (db : DB) (msg : String) (ts : Nat) :
    preCount (addReceipt db msg ts) = preCount db := rfl

theorem preCount_commitSummary (text : String) (now : Nat) (db : DB) :
    preCount (commitSummary text now db) = preCount db := rfl

theorem preCount_upsert (db : DB) (n : Nat) :
    preCount { db with userExists := true, receiptCount := some n } = n := rfl

/-- Invariant of the sequential creation run: after m sequential
creations the stored count is m and the refresh path has executed
exactly m / 5 times. -/
theorem runCreates_invariant (gen : String → String) (m : Nat) :
    preCount (runCreates gen m).1 = m ∧ (runCreates gen m).2 = m / 5 := by
  induction m with
  | zero => exact ⟨rfl, rfl⟩
  | succ k ih =>
    obtain ⟨hc, hr⟩ := ih
    have hpre : preCount (addReceipt (runCreates gen k).1 (noteText (k + 1)) (k + 1)) = k := by
      rw [preCount_addReceipt, hc]
    have hdiv : (k + 1) / 5 = k / 5 + if (k + 1) % 5 = 0 then 1 else 0 := by
      rw [Nat.succ_div]
      congr 1
      by_cases h5 : (k + 1) % 5 = 0
      · simp [h5, Nat.dvd_iff_mod_eq_zero]
      · simp [h5, Nat.dvd_iff_mod_eq_zero]
    by_cases h : (k + 1) % 5 = 0
    · have heq := (trigger_v3_ok_cases gen (k + 1)
        (addReceipt (runCreates gen k).1 (noteText (k + 1)) (k + 1))).2 (by rw [hpre]; exact h)
      constructor
      · simp only [runCreates, runStep, heq]
        rw [preCount_commitSummary, preCount_upsert, hpre]
      · simp only [runCreates, runStep, heq]
        simp [hr, hdiv, h]
    · have heq := (trigger_v3_ok_cases gen (k + 1)
        (addReceipt (runCreates gen k).1 (noteText (k + 1)) (k + 1))).1 (by rw [hpre]; exact h)
      constructor
      · simp only [runCreates, runStep, heq]
        rw [preCount_upsert, hpre]
      · simp only [runCreates, runStep, heq]
        simp [hr, hdiv, h]

/-- C1: under a backend that always succeeds, every batch-trigger
invocation upserts `receiptCount` to exactly one more than the count
it read, the refresh path executes on an invocation exactly when the
resulting `newCount` is a multiple of 5, and after m sequential
creations for one user the refresh has executed exactly m / 5 times
with the counter at m. -/
theorem C1_sequential_counter_and_refresh (gen : String → String) (now : Nat)
    (db : DB) (m : Nat) :
    (updateMemoryOnNewReceipt_v3 (okGen gen) now db).map (fun r => (preCount r.1, r.2))
      = Except.ok (preCount db + 1, decide ((preCount db + 1) % 5 = 0))
    ∧ preCount (runCreates gen m).1 = m
    ∧ (runCreates gen m).2 = m / 5 := by
  refine ⟨?_, (runCreates_invariant gen m).1, (runCreates_invariant gen m).2⟩
  by_cases h : (preCount db + 1) % 5 = 0
  · rw [(trigger_v3_ok_cases gen now db).2 h]
    simp [Except.map, preCount_commitSummary, preCount_upsert, h]
  · rw [(trigger_v3_ok_cases gen now db).1 h]
    simp [Except.map, preCount_upsert, h]

/-- C7: for a retrieved list in the store newest-first order, the
rendered entry lines are exactly the reverse of the retrieved order in
both pipelines (the enhancement reverse-then-map and the curation
map-then-reverse), that reversed order is strictly creation-time
ascending, and the rendered lists are capped at 3 entries in
enhancement mode and 15 in curation mode. -/
theorem C7_chronological_rendering (db : DB) (l : List Receipt)
    (hl : List.Sorted tsAfter l) :
    List.Sorted tsBefore l.reverse
    ∧ enhanceLines l = (l.reverse).map fmtEntry
    ∧ curateLines l = (l.reverse).map fmtEntry
    ∧ (enhanceLines (queryRecentDesc 3 db)).length ≤ 3
    ∧ (curateLines (queryRecentDesc 15 db)).length ≤ 15 := by
  refine ⟨?_, rfl, ?_, ?_, ?_⟩
  · rw [List.Sorted, List.pairwise_reverse]
    exact hl
  · simp [curateLines, List.map_reverse]
  · simp only [enhanceLines, List.length_map, List.length_reverse, queryRecentDesc,
      List.length_take]
    exact min_le_left _ _
  · simp only [curateLines, List.length_reverse, List.length_map, queryRecentDesc,
      List.length_take]
    exact min_le_left _ _

/-- Two receipts retrieved newest-first. -/
def twoNotesDesc : List Receipt := [⟨"second", 2⟩, ⟨"first", 1⟩]

/-- C7 witness: the rendered lines for a concrete newest-first
retrieval are the exact reverse of the retrieval in both pipelines,
within the 15-entry cap. -/
theorem C7_chronological_rendering_witness :
    curateLines twoNotesDesc = (twoNotesDesc.reverse).map fmtEntry
    ∧ (curateLines (queryRecentDesc 15 emptyDB)).length ≤ 15 :=
  ⟨(C7_chronological_rendering emptyDB twoNotesDesc (by decide)).2.2.1,
   (C7_chronological_rendering emptyDB twoNotesDesc (by decide)).2.2.2.2⟩

/-- Phase of one concurrent trigger transaction for the same user:
not yet started (or restarted after a conflict), holding the counter
value it read via `transaction.get(userRef)`, or committed with the
pre-increment counter value it validated. -/
inductive TxPhase where
  | idle
  | holding (c : Nat)
  | committed (pre : Nat)
deriving DecidableEq

/-- Store state shared by the concurrent trigger transactions of one
user: the committed counter, how many times the refresh path has
committed, and the phase of each in-flight transaction. -/
structure ConcState where
  count : Nat
  refreshes : Nat
  txs : List TxPhase
deriving DecidableEq

/-- Interleaving actions: transaction i performs its transactional read
of the counter, or attempts to commit.  The store validates the read
value against the current counter at commit time (optimistic retry
with read-set revalidation, the semantics the spec assumes of the
store): on conflict the transaction is re-executed from scratch. -/
inductive TxAct where
  | tryRead (i : Nat)
  | tryCommit (i : Nat)
deriving DecidableEq

/-- Pre-increment counter value of a committed transaction. -/
def preOf : TxPhase → Option Nat
  | TxPhase.committed c => some c
  | _ => none

/-- The pre-increment counter values observed by the transactions that
have committed so far. -/
def pres (s : ConcState) : List Nat := s.txs.filterMap preOf

/-- One scheduler step.  A commit of transaction i holding read value c
succeeds only when c still equals the committed counter; it then
applies the trigger body atomically — counter upserted to c + 1 and
the refresh path executed exactly when (c + 1) is a multiple of 5
(part_000 lines 238-246).  On conflict the transaction restarts. -/
def applyAct (s : ConcState) (a : TxAct) : ConcState :=
  match a with
  | TxAct.tryRead i =>
    match s.txs[i]? with
    | some TxPhase.idle => { s with txs := s.txs.set i (TxPhase.holding s.count) }
    | _ => s
  | TxAct.tryCommit i =>
    match s.txs[i]? with
    | some (TxPhase.holding c) =>
      if c = s.count then
        { count := c + 1,
          refreshes := s.refreshes + (if (c + 1) % 5 = 0 then 1 else 0),
          txs := s.txs.set i (TxPhase.committed c) }
      else
        { s with txs := s.txs.set i TxPhase.idle }
    | _ => s

/-- Run a whole schedule of interleaved steps. -/
def runActs (acts : List TxAct) (s : ConcState) : ConcState :=
  acts.foldl applyAct s

/-- All transactions have committed. -/
def allCommitted (s : ConcState) : Bool :=
  s.txs.all (fun p => (preOf p).isSome)

/-- Number of refresh executions among counter values 1..n. -/
def countRefresh (n : Nat) : Nat :=
  ((List.range n).filter (fun c => decide ((c + 1) % 5 = 0))).length

/-- Initial state for five concurrent creations of one user starting
from counter 0. -/
def concInit5 : ConcState := ⟨0, 0, List.replicate 5 TxPhase.idle⟩

theorem filterMap_set_none_eq {α β : Type} (f : α → Option β) :
    ∀ (l : List α) (i : Nat) (w v : α), l[i]? = some w → f w = none → f v = none →
      (l.set i v).filterMap f = l.filterMap f := by
  intro l
  induction l with
  | nil => intro i w v hg _ _; simp at hg
  | cons a t ih =>
    intro i w v hg hw hv
    cases i with
    | zero =>
      rw [List.getElem?_cons_zero] at hg
      obtain rfl : a = w := by injection hg
      simp [List.set, List.filterMap_cons, hw, hv]
    | succ j =>
      rw [List.getElem?_cons_succ] at hg
      have := ih j w v hg hw hv
      cases hfa : f a <;> simp [List.set, List.filterMap_cons, hfa, this]

theorem filterMap_set_none_some {α β : Type} (f : α → Option β) :
    ∀ (l : List α) (i : Nat) (w v : α) (c : β), l[i]? = some w → f w = none →
      f v = some c → List.Perm ((l.set i v).filterMap f) (c :: l.filterMap f) := by
  intro l
  induction l with
  | nil => intro i w v c hg _ _; simp at hg
  | cons a t ih =>
    intro i w v c hg hw hv
    cases i with
    | zero =>
      rw [List.getElem?_cons_zero] at hg
      obtain rfl : a = w := by injection hg
      simp [List.set, List.filterMap_cons, hw, hv]
    | succ j =>
      rw [List.getElem?_cons_succ] at hg
      have hperm := ih j w v c hg hw hv
      cases hfa : f a with
      | none => simpa [List.set, List.filterMap_cons, hfa] using hperm
      | some y =>
        simp only [List.set, List.filterMap_cons, hfa]
        exact (hperm.cons y).trans (List.Perm.swap c y _)

theorem countRefresh_succ (n : Nat) :
    countRefresh (n + 1) = countRefresh n + (if (n + 1) % 5 = 0 then 1 else 0) := by
  by_cases h : (n + 1) % 5 = 0 <;>
    simp [countRefresh, List.range_succ, List.filter_append, h]

/-- Invariant of the concurrent run: the committed pre-increment reads
are exactly 0, ..., count - 1 (each exactly once), and the number of
refresh executions matches the multiples of 5 among 1..count. -/
def ConcInv (s : ConcState) : Prop :=
  List.Perm (pres s) (List.range s.count) ∧ s.refreshes = countRefresh s.count

theorem applyAct_inv (s : ConcState) (a : TxAct) (h : ConcInv s) :
    ConcInv (applyAct s a) := by
  obtain ⟨hperm, href⟩ := h
  cases a with
  | tryRead i =>
    cases hg : s.txs[i]? with
    | none => simpa [applyAct, hg, ConcInv] using ⟨hperm, href⟩
    | some p =>
      cases p with
      | idle =>
        have hpres := filterMap_set_none_eq preOf s.txs i TxPhase.idle
          (TxPhase.holding s.count) hg rfl rfl
        simp only [applyAct, hg]
        refine ⟨?_, href⟩
        show List.Perm ((s.txs.set i (TxPhase.holding s.count)).filterMap preOf)
          (List.range s.count)
        rw [hpres]
        exact hperm
      | holding c =>
        simp only [applyAct, hg]
        exact ⟨hperm, href⟩
      | committed c =>
        simp only [applyAct, hg]
        exact ⟨hperm, href⟩
  | tryCommit i =>
    cases hg : s.txs[i]? with
    | none =>
      simp only [applyAct, hg]
      exact ⟨hperm, href⟩
    | some p =>
      cases p with
      | idle =>
        simp only [applyAct, hg]
        exact ⟨hperm, href⟩
      | committed c =>
        simp only [applyAct, hg]
        exact ⟨hperm, href⟩
      | holding c =>
        by_cases hc : c = s.count
        · have hpres := filterMap_set_none_some preOf s.txs i (TxPhase.holding c)
            (TxPhase.committed c) c hg rfl rfl
          simp only [applyAct, hg, if_pos hc]
          constructor
          · show List.Perm ((s.txs.set i (TxPhase.committed c)).filterMap preOf)
              (List.range (c + 1))
            refine hpres.trans ?_
            refine (hperm.cons c).trans ?_
            rw [List.range_succ, hc]
            exact (List.perm_append_singleton s.count (List.range s.count)).symm
          · show s.refreshes + (if (c + 1) % 5 = 0 then 1 else 0) = countRefresh (c + 1)
            rw [href, hc, countRefresh_succ]
        · have hpres := filterMap_set_none_eq preOf s.txs i (TxPhase.holding c)
            TxPhase.idle hg rfl rfl
          simp only [applyAct, hg, if_neg hc]
          refine ⟨?_, href⟩
          show List.Perm ((s.txs.set i TxPhase.idle).filterMap preOf) (List.range s.count)
          rw [hpres]
          exact hperm

theorem runActs_inv (acts : List TxAct) (s : ConcState) (h : ConcInv s) :
    ConcInv (runActs acts s) := by
  induction acts generalizing s with
  | nil => exact h
  | cons a rest ih => exact ih (applyAct s a) (applyAct_inv s a h)

theorem applyAct_txs_length (s : ConcState) (a : TxAct) :
    (applyAct s a).txs.length = s.txs.length := by
  cases a with
  | tryRead i =>
    cases hg : s.txs[i]? with
    | none => simp [applyAct, hg]
    | some p => cases p <;> simp [applyAct, hg, List.length_set]
  | tryCommit i =>
    cases hg : s.txs[i]? with
    | none => simp [applyAct, hg]
    | some p =>
      cases p with
      | idle => simp [applyAct, hg]
      | committed c => simp [applyAct, hg]
      | holding c => by_cases hc : c = s.count <;> simp [applyAct, hg, hc, List.length_set]

theorem runActs_txs_length (acts : List TxAct) (s : ConcState) :
    (runActs acts s).txs.length = s.txs.length := by
  induction acts generalizing s with
  | nil => rfl
  | cons a rest ih => rw [show runActs (a :: rest) s = runActs rest (applyAct s a) from rfl,
      ih (applyAct s a), applyAct_txs_length]

theorem filterMap_length_of_isSome {α β : Type} (f : α → Option β) :
    ∀ l : List α, (∀ p ∈ l, (f p).isSome = true) → (l.filterMap f).length = l.length := by
  intro l
  induction l with
  | nil => intro _; rfl
  | cons a t ih =>
    intro h
    have ha := h a (List.mem_cons_self a t)
    cases hfa : f a with
    | none => rw [hfa] at ha; simp at ha
    | some b =>
      have := ih (fun p hp => h p (List.mem_cons_of_mem a hp))
      simp [List.filterMap_cons, hfa, this]

/-- C6: for every interleaved schedule of five concurrent trigger
transactions for one user (starting from counter 0) in which all five
end up committed, the committed counter is exactly 5, the refresh path
committed exactly once — never zero times and never twice — and the
pre-increment counter values validated by the five commits are exactly
0, 1, 2, 3, 4 in some order: no two commits observed the same
pre-increment count and no increment was lost. -/
theorem C6_concurrent_exactly_once (acts : List TxAct)
    (h : allCommitted (runActs acts concInit5) = true) :
    (runActs acts concInit5).count = 5
    ∧ (runActs acts concInit5).refreshes = 1
    ∧ List.Perm (pres (runActs acts concInit5)) (List.range 5) := by
  have hinv := runActs_inv acts concInit5 ⟨List.Perm.refl _, rfl⟩
  have hlen : (runActs acts concInit5).txs.length = 5 := runActs_txs_length acts concInit5
  have hall : ∀ p ∈ (runActs acts concInit5).txs, (preOf p).isSome = true := by
    intro p hp
    exact List.all_eq_true.mp h p hp
  have hplen : (pres (runActs acts concInit5)).length = 5 := by
    rw [pres, filterMap_length_of_isSome preOf _ hall, hlen]
  have hcount : (runActs acts concInit5).count = 5 := by
    have hpr := hinv.1.length_eq
    rw [List.length_range, hplen] at hpr
    omega
  refine ⟨hcount, ?_, ?_⟩
  · rw [hinv.2, hcount]
    rfl
  · have := hinv.1
    rw [hcount] at this
    exact this

/-- A genuinely interleaved schedule: transactions 0 and 1 both read
counter 0; transaction 0 commits; transaction 1 then fails validation,
restarts, re-reads and commits; the remaining three follow. -/
def w6acts : List TxAct :=
  [TxAct.tryRead 0, TxAct.tryRead 1, TxAct.tryCommit 0, TxAct.tryCommit 1,
   TxAct.tryRead 1, TxAct.tryCommit 1, TxAct.tryRead 2, TxAct.tryCommit 2,
   TxAct.tryRead 3, TxAct.tryCommit 3, TxAct.tryRead 4, TxAct.tryCommit 4]

/-- C6 witness: the concrete interleaving with one read-write conflict
ends with counter 5 and exactly one refresh execution. -/
theorem C6_concurrent_exactly_once_witness :
    (runActs w6acts concInit5).count = 5 ∧ (runActs w6acts concInit5).refreshes = 1 := by
  have h := C6_concurrent_exactly_once w6acts (by decide)
  exact ⟨h.1, h.2.1⟩

end Scribe
